import Mathlib

/-!
Shallow embedding of the talkfiesta-backend core state machines:
the plan progression engine (`app/services/plan_service.py`), the
vocabulary mastery engine (`app/services/vocabulary_service.py`),
the graded-submission slot updates (`app/services/speaking_service.py`,
`app/services/writing_service.py`) and the cycle completion checker
(`app/services/cycle_service.py`).

Timestamps are modelled as natural numbers counting seconds; scores and
percentages (Python floats) are modelled as rationals; database rows are
records in explicit lists inside a `DB` state record.  `HTTPException`
is modelled as an explicit error value carrying the status code and
detail string.
-/

namespace TalkFiesta

/-- Enum `ActivityStatus` from `app/models/plan.py`. -/
inductive ActivityStatus
  | LOCKED
  | AVAILABLE
  | COMPLETED
deriving DecidableEq, Repr

/-- Enum `PlanStatus` from `app/models/plan.py`. -/
inductive PlanStatus
  | NOT_STARTED
  | IN_PROGRESS
  | COMPLETED
deriving DecidableEq, Repr

/-- Enum `PlanType` from `app/models/plan.py`. -/
inductive PlanType
  | SPEAKING
  | VOCABULARY
  | WRITING
deriving DecidableEq, Repr

/-- Enum `VocabularyStatus` from `app/models/vocabulary.py`. -/
inductive VocabularyStatus
  | NEW
  | LEARNING
  | REVIEWING
  | MASTERED
deriving DecidableEq, Repr

/-- String value of a `PlanType`, as interpolated into detail messages. -/
def planTypeStr : PlanType → String
  | PlanType.SPEAKING => "SPEAKING"
  | PlanType.VOCABULARY => "VOCABULARY"
  | PlanType.WRITING => "WRITING"

/-- A `daily_activities` row (`DailyActivity` in `app/models/plan.py`).
Only the columns the core logic reads or writes are modelled. -/
structure DailyActivity where
  id : Nat
  user_plan_id : Nat
  day_number : Nat
  status : ActivityStatus
  score : Option ℚ
  completed_at : Option Nat
  time_spent_seconds : Nat
  attempts_count : Nat
deriving DecidableEq, Repr

/-- A `user_plans` row (`UserPlan` in `app/models/plan.py`). -/
structure UserPlan where
  id : Nat
  user_id : Nat
  plan_type : PlanType
  cycle_number : Nat
  status : PlanStatus
  current_day : Nat
  completion_percentage : ℚ
  started_at : Option Nat
  completed_at : Option Nat
deriving DecidableEq, Repr

/-- A `cycle_completions` row (`CycleCompletion` in `app/models/plan.py`). -/
structure CycleCompletion where
  user_id : Nat
  cycle_number : Nat
  completed_at : Nat
deriving DecidableEq, Repr

/-- A `user_vocabulary` row (`UserVocabulary` in `app/models/vocabulary.py`).
`mastery_level` is a Python `int`, modelled as `ℤ`. -/
structure UserVocabulary where
  id : Nat
  user_id : Nat
  word_id : Nat
  day_number : Nat
  status : VocabularyStatus
  mastery_level : ℤ
  times_reviewed : Nat
  times_practiced : Nat
  last_reviewed_at : Option Nat
  next_review_at : Option Nat
  mastered_at : Option Nat
deriving DecidableEq, Repr

/-- The relational store: one list per table the core touches. -/
structure DB where
  plans : List UserPlan
  activities : List DailyActivity
  cycle_completions : List CycleCompletion
  user_vocabulary : List UserVocabulary
deriving DecidableEq, Repr

/-- A raised `HTTPException`: status code plus detail string. -/
structure HTTPError where
  code : Nat
  detail : String
deriving DecidableEq, Repr

/-- Write back a mutated plan row (the ORM object update + commit). -/
def setPlan (db : DB) (p : UserPlan) : DB :=
  { db with plans := db.plans.map (fun q => if q.id = p.id then p else q) }

/-- Write back a mutated activity row. -/
def setActivity (db : DB) (a : DailyActivity) : DB :=
  { db with activities := db.activities.map (fun b => if b.id = a.id then a else b) }

/-- Write back a mutated user-vocabulary row. -/
def setUserVocabulary (db : DB) (v : UserVocabulary) : DB :=
  { db with user_vocabulary := db.user_vocabulary.map (fun w => if w.id = v.id then v else w) }

/-- Models `db.query(UserPlan).filter(UserPlan.id == plan_id).first()`. -/
def getPlan? (db : DB) (plan_id : Nat) : Option UserPlan :=
  db.plans.find? (fun p => p.id == plan_id)

/-- Models `db.query(DailyActivity).filter(DailyActivity.id == activity_id).first()`. -/
def getActivity? (db : DB) (activity_id : Nat) : Option DailyActivity :=
  db.activities.find? (fun a => a.id == activity_id)

/-!
## Vocabulary mastery engine

Transcription of the progress-update block of
`VocabularyService.submit_vocabulary_practice`
(`app/services/vocabulary_service.py`, lines 309-346), split into the
three sequential blocks of the source.
-/

/-- Lines 309-310: `times_practiced += 1; last_reviewed_at = utcnow()`. -/
def updMeta (uv : UserVocabulary) (now : Nat) : UserVocabulary :=
  { uv with times_practiced := uv.times_practiced + 1, last_reviewed_at := some now }

/-- Lines 312-332: mastery level update and the status branches
that fire only at the promotion thresholds 1/3/5 (setting `mastered_at`
whenever level 5 is the branch taken) and at demotion to 0. -/
def updMastery (uv : UserVocabulary) (is_correct : Bool) (now : Nat) : UserVocabulary :=
  if is_correct then
    let uv1 := if uv.mastery_level < 5
      then { uv with mastery_level := uv.mastery_level + 1 } else uv
    if uv1.mastery_level = 1 then { uv1 with status := VocabularyStatus.LEARNING }
    else if uv1.mastery_level = 3 then { uv1 with status := VocabularyStatus.REVIEWING }
    else if uv1.mastery_level = 5 then
      { uv1 with status := VocabularyStatus.MASTERED, mastered_at := some now }
    else uv1
  else
    let uv1 := if uv.mastery_level > 0
      then { uv with mastery_level := uv.mastery_level - 1 } else uv
    if uv1.mastery_level = 0 then { uv1 with status := VocabularyStatus.NEW } else uv1

/-- Lines 334-346: the spaced-repetition delay chain keyed on the
updated mastery level (delays written in seconds). -/
def updSchedule (uv : UserVocabulary) (now : Nat) : UserVocabulary :=
  if uv.mastery_level = 0 then { uv with next_review_at := some (now + 3600) }
  else if uv.mastery_level = 1 then { uv with next_review_at := some (now + 6 * 3600) }
  else if uv.mastery_level = 2 then { uv with next_review_at := some (now + 24 * 3600) }
  else if uv.mastery_level = 3 then { uv with next_review_at := some (now + 3 * 86400) }
  else if uv.mastery_level = 4 then { uv with next_review_at := some (now + 7 * 86400) }
  else if uv.mastery_level = 5 then { uv with next_review_at := some (now + 30 * 86400) }
  else uv

/-- The whole per-record progress update of
`submit_vocabulary_practice` (lines 309-346): bookkeeping, then the
mastery transition, then review scheduling.  This is the operation the
specification calls `applyPracticeResult(progress, isCorrect, now)`. -/
def applyPracticeResult (uv : UserVocabulary) (is_correct : Bool) (now : Nat) : UserVocabulary :=
  updSchedule (updMastery (updMeta uv now) is_correct now) now

/-- Folding a sequence of practice results over one record. -/
def applyPracticeSequence (uv : UserVocabulary) (results : List Bool) (now : Nat) :
    UserVocabulary :=
  results.foldl (fun v c => applyPracticeResult v c now) uv

/-- The status-derivation table as the specification words it:
level 0 gives NEW, 1-2 LEARNING, 3-4 REVIEWING, 5 MASTERED. -/
def statusFromLevel (l : ℤ) : VocabularyStatus :=
  if l = 0 then VocabularyStatus.NEW
  else if l ≤ 2 then VocabularyStatus.LEARNING
  else if l ≤ 4 then VocabularyStatus.REVIEWING
  else VocabularyStatus.MASTERED

/-- The next-review delay table as the specification words it
(seconds), keyed by the resulting mastery level. -/
def reviewDelaySeconds (l : ℤ) : Nat :=
  if l = 0 then 3600
  else if l = 1 then 6 * 3600
  else if l = 2 then 24 * 3600
  else if l = 3 then 3 * 86400
  else if l = 4 then 7 * 86400
  else 30 * 86400

/-!
## Plan progression engine

Transcription of `PlanService` (`app/services/plan_service.py`).
-/

/-- Count of COMPLETED activities of a plan
(`update_plan_progress`, lines 240-245). -/
def completedCount (db : DB) (plan_id : Nat) : Nat :=
  (db.activities.filter
    (fun a => a.user_plan_id == plan_id && a.status == ActivityStatus.COMPLETED)).length

/-- The activities of a plan that are not COMPLETED
(`update_plan_progress`, lines 258-263, before ordering). -/
def nonCompleted (db : DB) (plan_id : Nat) : List DailyActivity :=
  db.activities.filter
    (fun a => a.user_plan_id == plan_id && a.status != ActivityStatus.COMPLETED)

/-- Models `order_by(DailyActivity.day_number).first()`: the element with the
smallest `day_number` (first such element on ties). -/
def firstByDay? : List DailyActivity → Option DailyActivity
  | [] => none
  | a :: l =>
    match firstByDay? l with
    | none => some a
    | some b => if b.day_number < a.day_number then some b else some a

/-- The plan-row mutation performed by `update_plan_progress`
(lines 239-268): completion percentage, status/completed_at, and the
current-day pointer. -/
def recomputePlan (db : DB) (plan_id : Nat) (p : UserPlan) (now : Nat) : UserPlan :=
  let cc := completedCount db plan_id
  let p1 := { p with completion_percentage := ((cc : ℚ) / 21) * 100 }
  let p2 :=
    if cc = 21 then { p1 with status := PlanStatus.COMPLETED, completed_at := some now }
    else if cc > 0 then { p1 with status := PlanStatus.IN_PROGRESS }
    else p1
  match firstByDay? (nonCompleted db plan_id) with
  | some a => { p2 with current_day := a.day_number }
  | none => { p2 with current_day := 21 }

/-- Transcription of `PlanService.update_plan_progress` (lines 227-270): silently
returns the store unchanged when no plan row matches, otherwise writes
back the recomputed plan row. -/
def update_plan_progress (db : DB) (plan_id : Nat) (now : Nat) : DB :=
  match getPlan? db plan_id with
  | none => db
  | some plan => setPlan db (recomputePlan db plan_id plan now)

/-- Transcription of `PlanService.complete_activity` (lines 276-321): unconditionally
marks the slot COMPLETED with the given score, unlocks the following
LOCKED slot if any, then recomputes the plan. -/
def complete_activity (db : DB) (activity_id : Nat) (score : ℚ) (time_spent : Nat)
    (now : Nat) : Except HTTPError DB :=
  match getActivity? db activity_id with
  | none => Except.error ⟨404, "Activity not found"⟩
  | some activity =>
    let a1 := { activity with
      status := ActivityStatus.COMPLETED
      score := some score
      completed_at := some now
      time_spent_seconds := activity.time_spent_seconds + time_spent
      attempts_count := activity.attempts_count + 1 }
    let db1 := setActivity db a1
    let db2 :=
      match db1.activities.find?
          (fun a => a.user_plan_id == activity.user_plan_id &&
                    a.day_number == activity.day_number + 1) with
      | some next =>
        if next.status = ActivityStatus.LOCKED
        then setActivity db1 { next with status := ActivityStatus.AVAILABLE }
        else db1
      | none => db1
    Except.ok (update_plan_progress db2 activity.user_plan_id now)

/-- Transcription of `_create_daily_activities` (lines 117-138): 21 slots, day 1
AVAILABLE, days 2-21 LOCKED.  Row ids are `act_id0`, `act_id0 + 1`, ... -/
def create_daily_activities (plan_id : Nat) (act_id0 : Nat) : List DailyActivity :=
  (List.range 21).map (fun i =>
    { id := act_id0 + i
      user_plan_id := plan_id
      day_number := i + 1
      status := if i + 1 = 1 then ActivityStatus.AVAILABLE else ActivityStatus.LOCKED
      score := none
      completed_at := none
      time_spent_seconds := 0
      attempts_count := 0 })

/-- Transcription of `PlanService.start_plan` (lines 58-115): cycle range check,
duplicate (user, type, cycle) check, then the new plan row with its 21
child slots.  `plan_id` and `act_id0` stand for the generated row ids. -/
def start_plan (db : DB) (user_id : Nat) (plan_type : PlanType) (cycle_number : Nat)
    (now : Nat) (plan_id : Nat) (act_id0 : Nat) : Except HTTPError (UserPlan × DB) :=
  if cycle_number < 1 ∨ cycle_number > 5 then
    Except.error ⟨400, "Cycle number must be between 1 and 5"⟩
  else
    match db.plans.find? (fun p => p.user_id == user_id && p.plan_type == plan_type &&
        p.cycle_number == cycle_number) with
    | some _ =>
      Except.error ⟨409, planTypeStr plan_type ++ " plan for cycle " ++
        toString cycle_number ++ " already exists"⟩
    | none =>
      let new_plan : UserPlan :=
        { id := plan_id
          user_id := user_id
          plan_type := plan_type
          cycle_number := cycle_number
          status := PlanStatus.IN_PROGRESS
          current_day := 1
          completion_percentage := 0
          started_at := some now
          completed_at := none }
      Except.ok (new_plan,
        { db with
          plans := db.plans ++ [new_plan]
          activities := db.activities ++ create_daily_activities plan_id act_id0 })

/-!
## Practice submission slot updates

The speaking and writing submission handlers update the attempted slot
with an identical guarded block
(`app/services/speaking_service.py`, lines 253-263, and
`app/services/writing_service.py`, lines 259-268); the vocabulary
handler uses a weaker guard with a fixed 100/50 proxy score
(`app/services/vocabulary_service.py`, lines 350-358).
-/

/-- Models `activity.score is None or submission.overall_score > activity.score`
(evaluated only when the slot is already COMPLETED). -/
def betterScore (new_score : ℚ) : Option ℚ → Bool
  | none => true
  | some s => decide (new_score > s)

/-- Slot update of the speaking/writing handlers: attempts and time
accumulate unconditionally; status/score/completed_at are written only
when the slot was not COMPLETED, had no score, or the new score is
strictly higher. -/
def gradedActivityUpdate (a : DailyActivity) (overall_score : ℚ)
    (time_spent_seconds : Nat) (now : Nat) : DailyActivity :=
  let a1 := { a with
    attempts_count := a.attempts_count + 1
    time_spent_seconds := a.time_spent_seconds + time_spent_seconds }
  if a1.status ≠ ActivityStatus.COMPLETED ∨ betterScore overall_score a1.score then
    { a1 with
      status := ActivityStatus.COMPLETED
      score := some overall_score
      completed_at := some now }
  else a1

/-- Slot update of the vocabulary handler (lines 350-358): writes
status/score/completed_at only when the slot was not COMPLETED or had
no score, with the 100/50 correctness proxy score. -/
def vocabActivityUpdate (a : DailyActivity) (is_correct : Bool)
    (time_taken_seconds : Nat) (now : Nat) : DailyActivity :=
  let a1 := { a with
    attempts_count := a.attempts_count + 1
    time_spent_seconds := a.time_spent_seconds + time_taken_seconds }
  if a1.status ≠ ActivityStatus.COMPLETED ∨ a1.score = none then
    { a1 with
      status := ActivityStatus.COMPLETED
      score := some (if is_correct then (100 : ℚ) else 50)
      completed_at := some now }
  else a1

/-- The shared shape of `submit_speaking_exercise`
(`speaking_service.py`, lines 128-268) and `submit_writing`
(`writing_service.py`) as far as slot and plan state are concerned:
look up the slot, check ownership through `activity.user_plan`
(a missing plan row makes that dereference blow up, surfaced as a 500),
apply the guarded slot update with the submission's overall score, then
recompute the plan.  No next-slot unlock appears anywhere on this path. -/
def submitGradedExercise (db : DB) (user_id : Nat) (daily_activity_id : Nat)
    (overall_score : ℚ) (time_spent_seconds : Nat) (now : Nat) : Except HTTPError DB :=
  match getActivity? db daily_activity_id with
  | none => Except.error ⟨404, "Daily activity not found"⟩
  | some activity =>
    match getPlan? db activity.user_plan_id with
    | none => Except.error ⟨500, "Internal Server Error"⟩
    | some plan =>
      if plan.user_id ≠ user_id then
        Except.error ⟨403, "This activity does not belong to you"⟩
      else
        let db1 := setActivity db (gradedActivityUpdate activity overall_score
          time_spent_seconds now)
        Except.ok (update_plan_progress db1 activity.user_plan_id now)

/-- Transcription of `VocabularyService.submit_vocabulary_practice`
(`app/services/vocabulary_service.py`, lines 236-375) as far as stored
state is concerned: the user-vocabulary lookup (lines 264-275), the
activity lookup (278-286), the ownership check through
`activity.user_plan` (line 288 — when the plan row is missing, the
relationship is None and the attribute access raises an unhandled
AttributeError, surfaced as HTTP 500), then the progress update
(309-346), the slot update (350-358) and the plan recompute
(361-363).  The created `VocabularyPracticeSession` row (the method's
return value) is not modelled; no claim observes it. -/
def submit_vocabulary_practice (db : DB) (user_id : Nat) (user_vocabulary_id : Nat)
    (daily_activity_id : Nat) (is_correct : Bool) (time_taken_seconds : Nat)
    (now : Nat) : Except HTTPError DB :=
  match db.user_vocabulary.find?
      (fun v => v.id == user_vocabulary_id && v.user_id == user_id) with
  | none => Except.error ⟨404, "User vocabulary not found"⟩
  | some user_vocabulary =>
    match getActivity? db daily_activity_id with
    | none => Except.error ⟨404, "Daily activity not found"⟩
    | some activity =>
      match getPlan? db activity.user_plan_id with
      | none => Except.error ⟨500, "Internal Server Error"⟩
      | some plan =>
        if plan.user_id ≠ user_id then
          Except.error ⟨403, "This activity does not belong to you"⟩
        else
          let db1 := setUserVocabulary db
            (applyPracticeResult user_vocabulary is_correct now)
          let db2 := setActivity db1
            (vocabActivityUpdate activity is_correct time_taken_seconds now)
          Except.ok (update_plan_progress db2 activity.user_plan_id now)

/-!
## Cycle completion checker

Transcription of `CycleService.complete_cycle`
(`app/services/cycle_service.py`, lines 59-125).
-/

/-- Transcription of `CycleService.complete_cycle`.  The method's first
query (line 78) applies `and_`, but cycle_service.py imports only
`desc` from sqlalchemy (line 7), so every call raises
`NameError: name 'and_' is not defined` while building that query,
before any precondition is checked; the endpoint has no handler, so
FastAPI surfaces the unhandled exception as HTTP 500.  The
duplicate-completion check, the plan queries and the insert (which
would in addition violate the NOT NULL `started_at` column of
`cycle_completions`, never assigned at lines 114-119) are all
unreachable. -/
def complete_cycle (db : DB) (user_id : Nat) (cycle_number : Nat) (now : Nat) :
    Except HTTPError (CycleCompletion × DB) :=
  Except.error ⟨500, "Internal Server Error"⟩

/-- The level transition exactly as the source writes it: a correct
answer increments below 5, an incorrect answer decrements above 0. -/
def masteryStep (l : ℤ) (c : Bool) : ℤ :=
  if c then (if l < 5 then l + 1 else l) else (if l > 0 then l - 1 else l)

/-!
## Concrete scenario states

Row ids are arbitrary distinct naturals standing for the generated
uuids; timestamps are seconds.
-/

/-- The empty store. -/
def emptyDB : DB := ⟨[], [], [], []⟩

/-- A fresh SPEAKING plan for user 1, cycle 1, started at time 0:
plan row id 10, slot row ids 100..120 for days 1..21. -/
def c1_db : DB :=
  match start_plan emptyDB 1 PlanType.SPEAKING 1 0 10 100 with
  | Except.ok (_, d) => d
  | Except.error _ => emptyDB

/-- The plan row of `c1_db` as `start_plan` creates it. -/
def c1_plan : UserPlan :=
  ⟨10, 1, PlanType.SPEAKING, 1, PlanStatus.IN_PROGRESS, 1, 0, some 0, none⟩

/-- The day-1 slot of `c1_db` as `start_plan` creates it. -/
def c1_slot1 : DailyActivity := ⟨100, 10, 1, ActivityStatus.AVAILABLE, none, none, 0, 0⟩

/-- The store after a graded submission with overall score 90 and 300
seconds spent hits the day-1 slot at time 50. -/
def c1_afterSubmit : DB :=
  match submitGradedExercise c1_db 1 100 90 300 50 with
  | Except.ok d => d
  | Except.error _ => emptyDB

/-- The intermediate store of that submission: the slot written back,
the plan not yet recomputed. -/
def c1_dbMid : DB := setActivity c1_db (gradedActivityUpdate c1_slot1 90 300 50)

/-- The store after `PlanService.complete_activity` (the dead code
path) is applied to the same fresh plan and slot instead. -/
def c1_afterComplete : DB :=
  match complete_activity c1_db 100 90 300 50 with
  | Except.ok d => d
  | Except.error _ => emptyDB

/-- A vocabulary record at level 3 with the status the derivation
table assigns to level 3. -/
def c5_uv : UserVocabulary :=
  ⟨1, 1, 1, 1, VocabularyStatus.REVIEWING, 3, 0, 0, none, none, none⟩

/-- A mastered vocabulary record whose `mastered_at` was set at time 10. -/
def c9_uv : UserVocabulary :=
  ⟨2, 1, 1, 1, VocabularyStatus.MASTERED, 5, 0, 0, none, none, some 10⟩

/-- Three COMPLETED plans of user 1, cycle 1, one per plan type. -/
def c7_planS : UserPlan :=
  ⟨20, 1, PlanType.SPEAKING, 1, PlanStatus.COMPLETED, 21, 100, some 0, some 10⟩

/-- See `c7_planS`. -/
def c7_planV : UserPlan :=
  ⟨21, 1, PlanType.VOCABULARY, 1, PlanStatus.COMPLETED, 21, 100, some 0, some 10⟩

/-- See `c7_planS`. -/
def c7_planW : UserPlan :=
  ⟨22, 1, PlanType.WRITING, 1, PlanStatus.COMPLETED, 21, 100, some 0, some 10⟩

/-- A store where user 1 has completed all three plans of cycle 1 and
has no cycle-completion row yet. -/
def c7_db : DB := ⟨[c7_planS, c7_planV, c7_planW], [], [], []⟩

/-- State of `c7_db` after the successful `complete_cycle` call at time 9. -/
def c7_dbDone : DB := ⟨[c7_planS, c7_planV, c7_planW], [], [⟨1, 1, 9⟩], []⟩

/-- A store where user 1 has one IN_PROGRESS writing plan in cycle 1. -/
def c7_dbPartial : DB :=
  ⟨[⟨23, 1, PlanType.WRITING, 1, PlanStatus.IN_PROGRESS, 3, 10, some 0, none⟩], [], [], []⟩

/-- A plan of user 1 whose 21 slots are all COMPLETED and whose
`completed_at` was stamped 50. -/
def c8_plan : UserPlan :=
  ⟨1, 1, PlanType.WRITING, 1, PlanStatus.COMPLETED, 21, 100, some 0, some 50⟩

/-- The 21 COMPLETED slots of `c8_plan`. -/
def c8_acts : List DailyActivity :=
  (List.range 21).map (fun i => ⟨200 + i, 1, i + 1, ActivityStatus.COMPLETED, some 80, some 40, 0, 1⟩)

/-- The store holding `c8_plan` and its completed slots. -/
def c8_db : DB := ⟨[c8_plan], c8_acts, [], []⟩

/-- A plan with one COMPLETED and one AVAILABLE slot, for witnesses. -/
def w_plan : UserPlan :=
  ⟨3, 1, PlanType.SPEAKING, 1, PlanStatus.IN_PROGRESS, 1, 0, some 0, none⟩

/-- The two slots of `w_plan`: day 1 COMPLETED, day 2 AVAILABLE. -/
def w_db : DB :=
  ⟨[w_plan],
   [⟨30, 3, 1, ActivityStatus.COMPLETED, some 70, some 5, 60, 1⟩,
    ⟨31, 3, 2, ActivityStatus.AVAILABLE, none, none, 0, 0⟩], [], []⟩

/-- A COMPLETED slot carrying score 90, for the monotonicity witness. -/
def w_slot : DailyActivity := ⟨40, 3, 1, ActivityStatus.COMPLETED, some 90, some 7, 60, 1⟩

/-- An activity slot whose `user_plan_id` (7) may or may not have a
matching plan row, depending on the store. -/
def c10_act : DailyActivity := ⟨50, 7, 1, ActivityStatus.AVAILABLE, none, none, 0, 0⟩

/-- A vocabulary-progress row of user 1, for the submission scenarios. -/
def c10_uv : UserVocabulary :=
  ⟨9, 1, 4, 1, VocabularyStatus.NEW, 0, 0, 0, none, none, none⟩

/-- A store holding `c10_act` and `c10_uv` but no plan row: the slot
is an orphan whose plan row is missing. -/
def c10_db : DB := ⟨[], [c10_act], [], [c10_uv]⟩

/-- The plan row with id 7 that `c10_db` is missing. -/
def c10_plan : UserPlan :=
  ⟨7, 1, PlanType.VOCABULARY, 1, PlanStatus.IN_PROGRESS, 1, 0, some 0, none⟩

/-- The same store as `c10_db` with the plan row present. -/
def c10_okDB : DB := ⟨[c10_plan], [c10_act], [], [c10_uv]⟩

/-!
## Helper lemmas
-/

theorem recomputePlan_id (db : DB) (pid : Nat) (p : UserPlan) (now : Nat) :
    (recomputePlan db pid p now).id = p.id := by
  simp only [recomputePlan]
  repeat' split
  all_goals rfl

theorem recomputePlan_pct (db : DB) (pid : Nat) (p : UserPlan) (now : Nat) :
    (recomputePlan db pid p now).completion_percentage =
      ((completedCount db pid : ℚ) / 21) * 100 := by
  simp only [recomputePlan]
  repeat' split
  all_goals rfl

theorem recomputePlan_current_day (db : DB) (pid : Nat) (p : UserPlan) (now : Nat) :
    (recomputePlan db pid p now).current_day =
      (match firstByDay? (nonCompleted db pid) with
        | some a => a.day_number
        | none => 21) := by
  simp only [recomputePlan]
  repeat' split
  all_goals simp_all

theorem recomputePlan_status_21 (db : DB) (pid : Nat) (p : UserPlan) (now : Nat)
    (h : completedCount db pid = 21) :
    (recomputePlan db pid p now).status = PlanStatus.COMPLETED ∧
      (recomputePlan db pid p now).completed_at = some now := by
  simp only [recomputePlan]
  repeat' split
  all_goals simp_all

theorem recomputePlan_status_mid (db : DB) (pid : Nat) (p : UserPlan) (now : Nat)
    (h0 : 0 < completedCount db pid) (h21 : completedCount db pid ≠ 21) :
    (recomputePlan db pid p now).status = PlanStatus.IN_PROGRESS ∧
      (recomputePlan db pid p now).completed_at = p.completed_at := by
  simp only [recomputePlan]
  repeat' split
  all_goals simp_all

theorem recomputePlan_status_zero (db : DB) (pid : Nat) (p : UserPlan) (now : Nat)
    (h : completedCount db pid = 0) :
    (recomputePlan db pid p now).status = p.status ∧
      (recomputePlan db pid p now).completed_at = p.completed_at := by
  simp only [recomputePlan]
  repeat' split
  all_goals simp_all

theorem find?_id_map_replace (l : List UserPlan) (pid : Nat) (p q : UserPlan)
    (hq : q.id = p.id) (h : l.find? (fun r => r.id == pid) = some p) :
    (l.map (fun r => if r.id = q.id then q else r)).find? (fun r => r.id == pid) = some q := by
  have hp : p.id = pid := by
    have := List.find?_some h
    simpa using this
  induction l with
  | nil => simp at h
  | cons a l ih =>
    by_cases ha : a.id = pid
    · rw [List.find?_cons_of_pos _ (by simpa using ha)] at h
      have hap : a = p := by simpa using h
      subst hap
      simp only [List.map_cons]
      rw [if_pos (by omega)]
      exact List.find?_cons_of_pos _ (by simp [hq, hp])
    · rw [List.find?_cons_of_neg _ (by simpa using ha)] at h
      simp only [List.map_cons]
      rw [if_neg (by omega)]
      rw [List.find?_cons_of_neg _ (by simpa using ha)]
      exact ih h

theorem getPlan?_update_plan_progress (db : DB) (pid : Nat) (now : Nat) (p : UserPlan)
    (h : getPlan? db pid = some p) :
    getPlan? (update_plan_progress db pid now) pid =
      some (recomputePlan db pid p now) := by
  unfold update_plan_progress
  rw [h]
  unfold getPlan? setPlan at *
  exact find?_id_map_replace db.plans pid p _ (recomputePlan_id db pid p now) h

theorem activities_update_plan_progress (db : DB) (pid : Nat) (now : Nat) :
    (update_plan_progress db pid now).activities = db.activities := by
  unfold update_plan_progress
  cases getPlan? db pid <;> rfl

theorem firstByDay?_eq_none (l : List DailyActivity) :
    firstByDay? l = none ↔ l = [] := by
  cases l with
  | nil => simp [firstByDay?]
  | cons a l =>
    constructor
    · intro h
      exfalso
      rw [firstByDay?] at h
      cases hfl : firstByDay? l with
      | none => rw [hfl] at h; simp at h
      | some b =>
        rw [hfl] at h
        dsimp only at h
        by_cases hlt : b.day_number < a.day_number
        · rw [if_pos hlt] at h; simp at h
        · rw [if_neg hlt] at h; simp at h
    · intro h
      simp at h

theorem firstByDay?_mem (l : List DailyActivity) (a : DailyActivity)
    (h : firstByDay? l = some a) : a ∈ l := by
  induction l generalizing a with
  | nil => simp [firstByDay?] at h
  | cons b l ih =>
    rw [firstByDay?] at h
    cases hfl : firstByDay? l with
    | none =>
      rw [hfl] at h
      injection h with h2
      subst h2
      exact List.mem_cons_self b l
    | some c =>
      rw [hfl] at h
      dsimp only at h
      by_cases hlt : c.day_number < b.day_number
      · rw [if_pos hlt] at h
        injection h with h2
        subst h2
        exact List.mem_cons_of_mem b (ih _ hfl)
      · rw [if_neg hlt] at h
        injection h with h2
        subst h2
        exact List.mem_cons_self b l

theorem firstByDay?_min (l : List DailyActivity) (a : DailyActivity)
    (h : firstByDay? l = some a) :
    ∀ b ∈ l, a.day_number ≤ b.day_number := by
  induction l generalizing a with
  | nil => simp [firstByDay?] at h
  | cons b l ih =>
    rw [firstByDay?] at h
    intro x hx
    cases hfl : firstByDay? l with
    | none =>
      rw [hfl] at h
      injection h with h2
      subst h2
      have hl : l = [] := (firstByDay?_eq_none l).mp hfl
      subst hl
      rcases List.mem_cons.mp hx with h3 | h3
      · subst h3; exact Nat.le_refl _
      · simp at h3
    | some c =>
      rw [hfl] at h
      dsimp only at h
      have hc := ih c hfl
      by_cases hlt : c.day_number < b.day_number
      · rw [if_pos hlt] at h
        injection h with h2
        have hda : a.day_number = c.day_number := by rw [h2]
        rcases List.mem_cons.mp hx with h3 | h3
        · have hxb : x.day_number = b.day_number := by rw [h3]
          omega
        · have := hc x h3
          omega
      · rw [if_neg hlt] at h
        injection h with h2
        have hda : a.day_number = b.day_number := by rw [h2]
        rcases List.mem_cons.mp hx with h3 | h3
        · have hxb : x.day_number = b.day_number := by rw [h3]
          omega
        · have := hc x h3
          omega


/-!
## Vocabulary engine lemmas
-/

theorem applyPracticeResult_level_step (uv : UserVocabulary) (c : Bool) (now : Nat)
    (h0 : 0 ≤ uv.mastery_level) (h5 : uv.mastery_level ≤ 5) :
    0 ≤ (applyPracticeResult uv c now).mastery_level ∧
    (applyPracticeResult uv c now).mastery_level ≤ 5 := by
  have h6 : uv.mastery_level = 0 ∨ uv.mastery_level = 1 ∨ uv.mastery_level = 2 ∨
      uv.mastery_level = 3 ∨ uv.mastery_level = 4 ∨ uv.mastery_level = 5 := by omega
  rcases h6 with h | h | h | h | h | h <;> cases c <;>
    simp [applyPracticeResult, updMeta, updMastery, updSchedule, h]

theorem applyPracticeSequence_bounds (now : Nat) (results : List Bool) :
    ∀ uv : UserVocabulary, 0 ≤ uv.mastery_level → uv.mastery_level ≤ 5 →
      0 ≤ (applyPracticeSequence uv results now).mastery_level ∧
      (applyPracticeSequence uv results now).mastery_level ≤ 5 := by
  induction results with
  | nil =>
    intro uv h0 h5
    exact ⟨by simpa [applyPracticeSequence] using h0, by simpa [applyPracticeSequence] using h5⟩
  | cons c rs ih =>
    intro uv h0 h5
    have hstep := applyPracticeResult_level_step uv c now h0 h5
    have hrec := ih (applyPracticeResult uv c now) hstep.1 hstep.2
    simpa [applyPracticeSequence, List.foldl_cons] using hrec

/-!
## Claim theorems
-/

/-- Claim C1 (code divergence witness): completing the day-1 slot of a
fresh plan through the practice-submission path (score 90) leaves
slot 1 COMPLETED with score 90, `current_day = 2` and
`completion_percentage = 100/21` as claimed, but slot 2 stays LOCKED
rather than becoming AVAILABLE: the LOCKED-to-AVAILABLE unlock exists
only in `PlanService.complete_activity`, which no submission handler
invokes; applying `complete_activity` to the same state does unlock
slot 2. -/
theorem c1_submission_unlock_code_bug :
    (getActivity? c1_afterSubmit 100).map (fun a => a.status) = some ActivityStatus.COMPLETED
  ∧ (getActivity? c1_afterSubmit 100).map (fun a => a.score) = some (some 90)
  ∧ (getActivity? c1_afterSubmit 101).map (fun a => a.status) = some ActivityStatus.LOCKED
  ∧ ¬ (ActivityStatus.LOCKED = ActivityStatus.AVAILABLE)
  ∧ (getPlan? c1_afterSubmit 10).map (fun p => p.current_day) = some 2
  ∧ (getPlan? c1_afterSubmit 10).map (fun p => p.completion_percentage) = some (100 / 21)
  ∧ (getActivity? c1_afterComplete 101).map (fun a => a.status) = some ActivityStatus.AVAILABLE := by
  refine ⟨by rfl, by rfl, by rfl, by decide, by rfl, ?_, by rfl⟩
  have hmid : c1_afterSubmit = update_plan_progress c1_dbMid 10 50 := by rfl
  have hplan : getPlan? c1_dbMid 10 = some c1_plan := by rfl
  rw [hmid, getPlan?_update_plan_progress c1_dbMid 10 50 c1_plan hplan]
  show some ((recomputePlan c1_dbMid 10 c1_plan 50).completion_percentage) = some (100 / 21)
  have hcc : completedCount c1_dbMid 10 = 1 := by decide
  rw [recomputePlan_pct, hcc]
  norm_num

/-- Claim C2: for a slot already COMPLETED with stored score `s`, the
speaking/writing submission update never lowers the stored score, and
rewrites score/completed_at only when the new score strictly exceeds
`s`; the vocabulary submission update leaves both untouched. -/
theorem c2_score_monotonic (a : DailyActivity) (s ns : ℚ) (t now : Nat) (c : Bool)
    (hst : a.status = ActivityStatus.COMPLETED) (hsc : a.score = some s) :
    (∀ s2 : ℚ, (gradedActivityUpdate a ns t now).score = some s2 → s ≤ s2)
  ∧ ((gradedActivityUpdate a ns t now).score ≠ a.score ∨
      (gradedActivityUpdate a ns t now).completed_at ≠ a.completed_at → s < ns)
  ∧ (gradedActivityUpdate a ns t now).score = some (if s < ns then ns else s)
  ∧ (vocabActivityUpdate a c t now).score = some s
  ∧ (vocabActivityUpdate a c t now).completed_at = a.completed_at := by
  by_cases hlt : s < ns
  · refine ⟨?_, fun _ => hlt, ?_, ?_, ?_⟩
    · intro s2 h2
      rw [show (gradedActivityUpdate a ns t now).score = some ns by
        unfold gradedActivityUpdate betterScore; simp [hst, hsc, hlt]] at h2
      injection h2 with h3
      rw [← h3]
      exact le_of_lt hlt
    · unfold gradedActivityUpdate betterScore
      simp [hst, hsc, hlt]
    · unfold vocabActivityUpdate
      simp [hst, hsc]
    · unfold vocabActivityUpdate
      simp [hst, hsc]
  · have hkey : (gradedActivityUpdate a ns t now).score = some s ∧
        (gradedActivityUpdate a ns t now).completed_at = a.completed_at := by
      unfold gradedActivityUpdate betterScore
      constructor <;> simp [hst, hsc, hlt]
    refine ⟨?_, ?_, ?_, ?_, ?_⟩
    · intro s2 h2
      rw [hkey.1] at h2
      injection h2 with h3
      rw [← h3]
    · intro hchange
      rcases hchange with hch | hch
      · exact absurd (hkey.1.trans hsc.symm) hch
      · exact absurd hkey.2 hch
    · rw [hkey.1, if_neg hlt]
    · unfold vocabActivityUpdate
      simp [hst, hsc]
    · unfold vocabActivityUpdate
      simp [hst, hsc]

/-- Witness for C2 at a COMPLETED slot with stored score 90 and a new
score of 50. -/
theorem c2_score_monotonic_witness :
    (∀ s2 : ℚ, (gradedActivityUpdate w_slot 50 5 8).score = some s2 → (90 : ℚ) ≤ s2)
  ∧ ((gradedActivityUpdate w_slot 50 5 8).score ≠ w_slot.score ∨
      (gradedActivityUpdate w_slot 50 5 8).completed_at ≠ w_slot.completed_at → (90 : ℚ) < 50)
  ∧ (gradedActivityUpdate w_slot 50 5 8).score = some (if (90 : ℚ) < 50 then 50 else 90)
  ∧ (vocabActivityUpdate w_slot true 5 8).score = some 90
  ∧ (vocabActivityUpdate w_slot true 5 8).completed_at = w_slot.completed_at :=
  c2_score_monotonic w_slot 90 50 5 8 true rfl rfl

/-- Claim C3: on levels 0..5 a correct answer moves the mastery level
to `min 5 (level+1)`, an incorrect one to `max 0 (level-1)`; the
resulting level depends on nothing but the old level and correctness;
and any sequence of results keeps the level within 0..5. -/
theorem c3_mastery_transition (uv : UserVocabulary) (now : Nat)
    (h0 : 0 ≤ uv.mastery_level) (h5 : uv.mastery_level ≤ 5) :
    (applyPracticeResult uv true now).mastery_level = min 5 (uv.mastery_level + 1)
  ∧ (applyPracticeResult uv false now).mastery_level = max 0 (uv.mastery_level - 1)
  ∧ (∀ uv2 : UserVocabulary, ∀ c : Bool, ∀ now2 : Nat, uv2.mastery_level = uv.mastery_level →
      (applyPracticeResult uv2 c now2).mastery_level = masteryStep uv.mastery_level c)
  ∧ ∀ results : List Bool,
      0 ≤ (applyPracticeSequence uv results now).mastery_level ∧
      (applyPracticeSequence uv results now).mastery_level ≤ 5 := by
  have h6 : uv.mastery_level = 0 ∨ uv.mastery_level = 1 ∨ uv.mastery_level = 2 ∨
      uv.mastery_level = 3 ∨ uv.mastery_level = 4 ∨ uv.mastery_level = 5 := by omega
  refine ⟨?_, ?_, ?_, fun results => applyPracticeSequence_bounds now results uv h0 h5⟩
  · rcases h6 with h | h | h | h | h | h <;>
      simp [applyPracticeResult, updMeta, updMastery, updSchedule, h]
  · rcases h6 with h | h | h | h | h | h <;>
      simp [applyPracticeResult, updMeta, updMastery, updSchedule, h]
  · intro uv2 c now2 heq
    rcases h6 with h | h | h | h | h | h <;> rw [h] at heq <;> cases c <;>
      simp [applyPracticeResult, updMeta, updMastery, updSchedule, masteryStep, h, heq]

/-- Witness for C3 at a level-3 record. -/
theorem c3_mastery_transition_witness :
    (applyPracticeResult c5_uv true 7).mastery_level = min 5 (c5_uv.mastery_level + 1)
  ∧ (applyPracticeResult c5_uv false 7).mastery_level = max 0 (c5_uv.mastery_level - 1)
  ∧ (∀ uv2 : UserVocabulary, ∀ c : Bool, ∀ now2 : Nat, uv2.mastery_level = c5_uv.mastery_level →
      (applyPracticeResult uv2 c now2).mastery_level = masteryStep c5_uv.mastery_level c)
  ∧ ∀ results : List Bool,
      0 ≤ (applyPracticeSequence c5_uv results 7).mastery_level ∧
      (applyPracticeSequence c5_uv results 7).mastery_level ≤ 5 :=
  c3_mastery_transition c5_uv 7 (by decide) (by decide)

/-- Claim C4: after `update_plan_progress` the plan row's `current_day`
is the smallest `day_number` among the plan's non-COMPLETED slots, or
21 when every slot is COMPLETED. -/
theorem c4_current_day_min (db : DB) (pid : Nat) (now : Nat) (p : UserPlan)
    (h : getPlan? db pid = some p) :
    ∃ d, (getPlan? (update_plan_progress db pid now) pid).map (fun q => q.current_day) = some d ∧
      ((nonCompleted db pid = [] ∧ d = 21) ∨
        (d ∈ (nonCompleted db pid).map (fun a => a.day_number) ∧
          ∀ b ∈ nonCompleted db pid, d ≤ b.day_number)) := by
  refine ⟨(recomputePlan db pid p now).current_day, ?_, ?_⟩
  · rw [getPlan?_update_plan_progress db pid now p h]
    rfl
  · rw [recomputePlan_current_day]
    cases hfb : firstByDay? (nonCompleted db pid) with
    | none =>
      left
      exact ⟨(firstByDay?_eq_none _).mp hfb, rfl⟩
    | some a =>
      right
      dsimp only
      exact ⟨List.mem_map_of_mem _ (firstByDay?_mem _ _ hfb), firstByDay?_min _ _ hfb⟩

/-- Witness for C4 on a plan whose day 1 is COMPLETED and day 2 AVAILABLE. -/
theorem c4_current_day_min_witness :
    ∃ d, (getPlan? (update_plan_progress w_db 3 77) 3).map (fun q => q.current_day) = some d ∧
      ((nonCompleted w_db 3 = [] ∧ d = 21) ∨
        (d ∈ (nonCompleted w_db 3).map (fun a => a.day_number) ∧
          ∀ b ∈ nonCompleted w_db 3, d ≤ b.day_number)) :=
  c4_current_day_min w_db 3 77 w_plan rfl

/-- Counterexample to C5 as stated: demoting a consistent level-3
REVIEWING record with an incorrect answer yields level 2 with status
still REVIEWING, while the claimed fixed derivation maps level 2 to
LEARNING. -/
theorem c5_status_counterexample :
    c5_uv.status = statusFromLevel c5_uv.mastery_level
  ∧ (applyPracticeResult c5_uv false 0).mastery_level = 2
  ∧ (applyPracticeResult c5_uv false 0).status = VocabularyStatus.REVIEWING
  ∧ statusFromLevel 2 = VocabularyStatus.LEARNING
  ∧ VocabularyStatus.REVIEWING ≠ VocabularyStatus.LEARNING := by
  refine ⟨by decide, by decide, by decide, by decide, by decide⟩

/-- Claim C5 amended: starting from a status consistent with the fixed
derivation, every correct answer leaves the status equal to the fixed
function of the updated level, but after an incorrect answer the
status matches the fixed function exactly when the resulting level is
not 2 and not 4 (demotions from 3 and 5 keep the old REVIEWING or
MASTERED status). -/
theorem c5_status_amended (uv : UserVocabulary) (c : Bool) (now : Nat)
    (h0 : 0 ≤ uv.mastery_level) (h5 : uv.mastery_level ≤ 5)
    (hs : uv.status = statusFromLevel uv.mastery_level) :
    (c = true → (applyPracticeResult uv c now).status =
        statusFromLevel (applyPracticeResult uv c now).mastery_level)
  ∧ (c = false →
      ((applyPracticeResult uv c now).status =
          statusFromLevel (applyPracticeResult uv c now).mastery_level ↔
        (applyPracticeResult uv c now).mastery_level ≠ 2 ∧
        (applyPracticeResult uv c now).mastery_level ≠ 4)) := by
  have h6 : uv.mastery_level = 0 ∨ uv.mastery_level = 1 ∨ uv.mastery_level = 2 ∨
      uv.mastery_level = 3 ∨ uv.mastery_level = 4 ∨ uv.mastery_level = 5 := by omega
  rcases h6 with h | h | h | h | h | h <;> cases c <;>
    simp [applyPracticeResult, updMeta, updMastery, updSchedule, statusFromLevel, h] at hs ⊢ <;>
    simp [hs]

/-- Witness for the amended C5 at a level-3 record and an incorrect
answer. -/
theorem c5_status_amended_witness :
    (false = true → (applyPracticeResult c5_uv false 3).status =
        statusFromLevel (applyPracticeResult c5_uv false 3).mastery_level)
  ∧ (false = false →
      ((applyPracticeResult c5_uv false 3).status =
          statusFromLevel (applyPracticeResult c5_uv false 3).mastery_level ↔
        (applyPracticeResult c5_uv false 3).mastery_level ≠ 2 ∧
        (applyPracticeResult c5_uv false 3).mastery_level ≠ 4)) :=
  c5_status_amended c5_uv false 3 (by decide) (by decide) (by decide)

/-- Claim C6: after every practice result on a record with level in
0..5, `next_review_at` is the current time plus the fixed table delay
keyed by the resulting level, and `last_reviewed_at` is the current
time, so their difference is exactly the table delay. -/
theorem c6_review_delay (uv : UserVocabulary) (c : Bool) (now : Nat)
    (h0 : 0 ≤ uv.mastery_level) (h5 : uv.mastery_level ≤ 5) :
    (applyPracticeResult uv c now).next_review_at =
      some (now + reviewDelaySeconds (applyPracticeResult uv c now).mastery_level)
  ∧ (applyPracticeResult uv c now).last_reviewed_at = some now := by
  have h6 : uv.mastery_level = 0 ∨ uv.mastery_level = 1 ∨ uv.mastery_level = 2 ∨
      uv.mastery_level = 3 ∨ uv.mastery_level = 4 ∨ uv.mastery_level = 5 := by omega
  rcases h6 with h | h | h | h | h | h <;> cases c <;>
    simp [applyPracticeResult, updMeta, updMastery, updSchedule, reviewDelaySeconds, h]

/-- Witness for C6 at a level-3 record answered correctly (resulting
level 4, delay 7 days). -/
theorem c6_review_delay_witness :
    (applyPracticeResult c5_uv true 4).next_review_at =
      some (4 + reviewDelaySeconds (applyPracticeResult c5_uv true 4).mastery_level)
  ∧ (applyPracticeResult c5_uv true 4).last_reviewed_at = some 4 :=
  c6_review_delay c5_uv true 4 (by decide) (by decide)

/-- Claim C7 (code divergence witness): `complete_cycle` never
performs the claimed AlreadyCompleted/NotFound/IncompletePlans checks
and never creates a CycleCompletion: because `and_` is not imported in
cycle_service.py, every call — on a store with an existing completion,
an empty store, a store with an incomplete plan, and a store with all
three plans COMPLETED alike — fails with the unhandled-NameError 500,
and no input ever yields a success or a 400/404. -/
theorem c7_complete_cycle_name_error :
    complete_cycle c7_dbDone 1 1 11 = Except.error ⟨500, "Internal Server Error"⟩
  ∧ complete_cycle emptyDB 1 1 5 = Except.error ⟨500, "Internal Server Error"⟩
  ∧ complete_cycle c7_dbPartial 1 1 5 = Except.error ⟨500, "Internal Server Error"⟩
  ∧ complete_cycle c7_db 1 1 9 = Except.error ⟨500, "Internal Server Error"⟩
  ∧ ∀ db : DB, ∀ u n now : Nat,
      complete_cycle db u n now = Except.error ⟨500, "Internal Server Error"⟩ :=
  ⟨rfl, rfl, rfl, rfl, fun _ _ _ _ => rfl⟩

/-- Counterexample to C8 as stated: recomputing a plan whose 21 slots
are all COMPLETED overwrites the previously stored `completed_at`
(50) with the new recompute time (60), so `completed_at` is not set
once only. -/
theorem c8_completed_at_counterexample :
    (getPlan? c8_db 1).map (fun p => p.completed_at) = some (some 50)
  ∧ completedCount c8_db 1 = 21
  ∧ (getPlan? (update_plan_progress c8_db 1 60) 1).map (fun p => p.completed_at) = some (some 60)
  ∧ ¬ (some (60 : Nat) = some 50) := by
  refine ⟨by decide, by decide, by decide, by decide⟩

/-- Claim C8 amended: each recompute sets `completion_percentage` to
`100 * completed / 21`; with all 21 slots done the status becomes
COMPLETED and `completed_at` is stamped with the current time on every
such recompute (overwritten, not set once); with 1-20 done the status
becomes IN_PROGRESS and `completed_at` is untouched; with 0 done both
status and `completed_at` are left unchanged (never reset to
NOT_STARTED). -/
theorem c8_recompute_amended (db : DB) (pid : Nat) (now : Nat) (p : UserPlan)
    (h : getPlan? db pid = some p) :
    getPlan? (update_plan_progress db pid now) pid = some (recomputePlan db pid p now)
  ∧ (recomputePlan db pid p now).completion_percentage =
      100 * (completedCount db pid : ℚ) / 21
  ∧ (completedCount db pid = 21 →
      (recomputePlan db pid p now).status = PlanStatus.COMPLETED ∧
      (recomputePlan db pid p now).completed_at = some now)
  ∧ (0 < completedCount db pid → completedCount db pid < 21 →
      (recomputePlan db pid p now).status = PlanStatus.IN_PROGRESS ∧
      (recomputePlan db pid p now).completed_at = p.completed_at)
  ∧ (completedCount db pid = 0 →
      (recomputePlan db pid p now).status = p.status ∧
      (recomputePlan db pid p now).completed_at = p.completed_at) := by
  refine ⟨getPlan?_update_plan_progress db pid now p h, ?_, ?_, ?_, ?_⟩
  · rw [recomputePlan_pct]
    ring
  · intro h21
    exact recomputePlan_status_21 db pid p now h21
  · intro hpos hlt
    exact recomputePlan_status_mid db pid p now hpos (by omega)
  · intro h0
    exact recomputePlan_status_zero db pid p now h0

/-- Witness for the amended C8 on the all-completed store `c8_db`. -/
theorem c8_recompute_witness :
    getPlan? (update_plan_progress c8_db 1 60) 1 = some (recomputePlan c8_db 1 c8_plan 60)
  ∧ (recomputePlan c8_db 1 c8_plan 60).completion_percentage =
      100 * (completedCount c8_db 1 : ℚ) / 21
  ∧ (completedCount c8_db 1 = 21 →
      (recomputePlan c8_db 1 c8_plan 60).status = PlanStatus.COMPLETED ∧
      (recomputePlan c8_db 1 c8_plan 60).completed_at = some 60)
  ∧ (0 < completedCount c8_db 1 → completedCount c8_db 1 < 21 →
      (recomputePlan c8_db 1 c8_plan 60).status = PlanStatus.IN_PROGRESS ∧
      (recomputePlan c8_db 1 c8_plan 60).completed_at = c8_plan.completed_at)
  ∧ (completedCount c8_db 1 = 0 →
      (recomputePlan c8_db 1 c8_plan 60).status = c8_plan.status ∧
      (recomputePlan c8_db 1 c8_plan 60).completed_at = c8_plan.completed_at) :=
  c8_recompute_amended c8_db 1 60 c8_plan rfl

/-- Counterexample to C9 as stated: a correct answer on a record that
is already at level 5 with `mastered_at = 10` overwrites `mastered_at`
with the current time 99, so the value is not preserved after the
first entry into MASTERED. -/
theorem c9_mastered_at_counterexample :
    c9_uv.mastered_at = some 10
  ∧ (applyPracticeResult c9_uv true 99).mastered_at = some 99
  ∧ ¬ (some (99 : Nat) = some 10) := by
  refine ⟨by decide, by decide, by decide⟩

/-- Claim C9 amended: `mastered_at` is never cleared (once non-null it
stays non-null); it is unchanged by incorrect answers and by answers
whose resulting level is below 5, but every correct answer whose
resulting level is 5 (first mastery, repeats at level 5, re-mastery)
stamps it with the current time. -/
theorem c9_mastered_at_amended (uv : UserVocabulary) (c : Bool) (now : Nat)
    (h0 : 0 ≤ uv.mastery_level) (h5 : uv.mastery_level ≤ 5) :
    (c = true → (applyPracticeResult uv c now).mastery_level = 5 →
      (applyPracticeResult uv c now).mastered_at = some now)
  ∧ (c = false → (applyPracticeResult uv c now).mastered_at = uv.mastered_at)
  ∧ ((applyPracticeResult uv c now).mastery_level ≠ 5 →
      (applyPracticeResult uv c now).mastered_at = uv.mastered_at)
  ∧ (uv.mastered_at ≠ none → (applyPracticeResult uv c now).mastered_at ≠ none) := by
  have h6 : uv.mastery_level = 0 ∨ uv.mastery_level = 1 ∨ uv.mastery_level = 2 ∨
      uv.mastery_level = 3 ∨ uv.mastery_level = 4 ∨ uv.mastery_level = 5 := by omega
  rcases h6 with h | h | h | h | h | h <;> cases c <;>
    simp [applyPracticeResult, updMeta, updMastery, updSchedule, h]

/-- Witness for the amended C9 at the mastered record `c9_uv`. -/
theorem c9_mastered_at_amended_witness :
    (true = true → (applyPracticeResult c9_uv true 99).mastery_level = 5 →
      (applyPracticeResult c9_uv true 99).mastered_at = some 99)
  ∧ (true = false → (applyPracticeResult c9_uv true 99).mastered_at = c9_uv.mastered_at)
  ∧ ((applyPracticeResult c9_uv true 99).mastery_level ≠ 5 →
      (applyPracticeResult c9_uv true 99).mastered_at = c9_uv.mastered_at)
  ∧ (c9_uv.mastered_at ≠ none → (applyPracticeResult c9_uv true 99).mastered_at ≠ none) :=
  c9_mastered_at_amended c9_uv true 99 (by decide) (by decide)

/-- Counterexample to C10 as stated: on a store whose only slot
points at a missing plan row, the vocabulary submission does not
complete its slot update — it fails with the unhandled-exception 500
raised by the ownership dereference `activity.user_plan.user_id`
before the slot update is reached. -/
theorem c10_missing_plan_counterexample :
    getPlan? c10_db 7 = none
  ∧ getActivity? c10_db 50 = some c10_act
  ∧ c10_act.user_plan_id = 7
  ∧ submit_vocabulary_practice c10_db 1 9 50 true 30 60 =
      Except.error ⟨500, "Internal Server Error"⟩ := by
  refine ⟨by rfl, by rfl, by rfl, by rfl⟩

/-- Claim C10 amended: `update_plan_progress` with a plan id matching
no plan row returns silently with the store unchanged, so the
recompute call inside a submission can never fail; but a submission
whose plan row is missing does not complete its slot update: the
ownership check dereferences the same missing plan row before the
slot update and fails with the unhandled-AttributeError 500, while a
submission whose plan row exists and belongs to the user completes
the record update, the slot update and the recompute without
failure. -/
theorem c10_missing_plan_amended (db : DB) (u vid aid : Nat) (c : Bool) (t now : Nat)
    (uv : UserVocabulary) (a : DailyActivity)
    (hv : db.user_vocabulary.find? (fun v => v.id == vid && v.user_id == u) = some uv)
    (ha : getActivity? db aid = some a) :
    (getPlan? db a.user_plan_id = none →
      update_plan_progress db a.user_plan_id now = db
      ∧ submit_vocabulary_practice db u vid aid c t now =
          Except.error ⟨500, "Internal Server Error"⟩)
  ∧ (∀ plan : UserPlan, getPlan? db a.user_plan_id = some plan → plan.user_id = u →
      submit_vocabulary_practice db u vid aid c t now =
        Except.ok (update_plan_progress
          (setActivity (setUserVocabulary db (applyPracticeResult uv c now))
            (vocabActivityUpdate a c t now)) a.user_plan_id now)) := by
  constructor
  · intro hnone
    constructor
    · unfold update_plan_progress
      rw [hnone]
    · unfold submit_vocabulary_practice
      rw [hv]
      dsimp only
      rw [ha]
      dsimp only
      rw [hnone]
  · intro plan hplan hu
    unfold submit_vocabulary_practice
    rw [hv]
    dsimp only
    rw [ha]
    dsimp only
    rw [hplan]
    dsimp only
    rw [if_neg (by simp [hu])]

/-- Witness for the amended C10: the missing-plan store fails with the
500 while the identical store with the plan row present completes the
full update pipeline. -/
theorem c10_missing_plan_amended_witness :
    (update_plan_progress c10_db 7 60 = c10_db
      ∧ submit_vocabulary_practice c10_db 1 9 50 true 30 60 =
          Except.error ⟨500, "Internal Server Error"⟩)
  ∧ submit_vocabulary_practice c10_okDB 1 9 50 true 30 60 =
      Except.ok (update_plan_progress
        (setActivity (setUserVocabulary c10_okDB (applyPracticeResult c10_uv true 60))
          (vocabActivityUpdate c10_act true 30 60)) 7 60) :=
  ⟨(c10_missing_plan_amended c10_db 1 9 50 true 30 60 c10_uv c10_act rfl rfl).1 rfl,
   (c10_missing_plan_amended c10_okDB 1 9 50 true 30 60 c10_uv c10_act rfl rfl).2
     c10_plan rfl rfl⟩

end TalkFiesta
